import Mathlib

/-
Verification of the wabt spec-test interpreter driver (src/tools/wasm-interp.cc).
The definitions below are a shallow embedding of the driver's data model and
command handlers; machine integers are modelled as Nat with explicit reduction
modulo 2^32 / 2^64 where a fixed-width field is read.  Components of the
repository that live outside the driver source (the interpreter Environment,
Thread::RunFunction, configuration constants) are modelled from the design
document and are marked as such in their doc comments.
-/

namespace Wabt

/-- The four wasm value types (Type::I32 .. Type::F64 in the source). -/
inductive WType where
  | I32
  | I64
  | F32
  | F64
deriving DecidableEq, Repr

/-- Width in bits of the union member that a TypedValue of the given type
stores (value.i32 / f32_bits are uint32, value.i64 / f64_bits are uint64). -/
def payloadWidth : WType → Nat
  | WType.I32 => 32
  | WType.F32 => 32
  | WType.I64 => 64
  | WType.F64 => 64

/-- TypedValue: a (type, payload) pair.  bits holds the active union member;
floats are stored as raw bit patterns (f32_bits / f64_bits in the source). -/
structure TypedValue where
  type : WType
  bits : Nat
deriving DecidableEq, Repr

/-- Reading the fixed-width union member of a TypedValue: the stored bits
reduced modulo the member's width. -/
def TypedValue.payload (tv : TypedValue) : Nat :=
  tv.bits % 2 ^ payloadWidth tv.type

/-- interpreter::Result: Ok, Returned, or one of the closed set of traps
(FOREACH_INTERPRETER_RESULT in the interpreter header; the names used by the
driver appear verbatim in wasm-interp.cc). -/
inductive IResult where
  | Ok
  | Returned
  | TrapUnreachable
  | TrapIntegerOverflow
  | TrapIntegerDivideByZero
  | TrapInvalidConversionToInteger
  | TrapMemoryAccessOutOfBounds
  | TrapUndefinedTableIndex
  | TrapUninitializedElement
  | TrapIndirectCallSignatureMismatch
  | TrapCallStackExhausted
  | TrapValueStackExhausted
  | TrapHostTrapped
  | UnknownExport
  | ExportKindMismatch
deriving DecidableEq, Repr

/-- wabt::Result: the two-valued success/failure result used by the loader
and the command handlers. -/
inductive WabtResult where
  | Ok
  | Error
deriving DecidableEq, Repr

/-- The pass/total counters of the driver Context (ctx->passed, ctx->total). -/
structure TestCounts where
  passed : Nat
  total : Nat
deriving DecidableEq, Repr

/-- typed_values_are_equal (wasm-interp.cc:1115): equal type tags and equal
bits of the union member selected by the tag.  i32/i64 compare as unsigned
integers, f32/f64 compare as raw bit patterns. -/
def typed_values_are_equal (tv1 tv2 : TypedValue) : Bool :=
  if tv1.type ≠ tv2.type then
    false
  else
    match tv1.type with
    | WType.I32 => decide (tv1.bits % 2 ^ 32 = tv2.bits % 2 ^ 32)
    | WType.F32 => decide (tv1.bits % 2 ^ 32 = tv2.bits % 2 ^ 32)
    | WType.I64 => decide (tv1.bits % 2 ^ 64 = tv2.bits % 2 ^ 64)
    | WType.F64 => decide (tv1.bits % 2 ^ 64 = tv2.bits % 2 ^ 64)

/-- Limits of a table or memory: (initial, optional max). -/
structure Limits where
  initial : Nat
  max : Nat
  has_max : Bool
deriving DecidableEq, Repr

/-- A memory: page limits plus the byte buffer (std::vector of bytes). -/
structure Memory where
  page_limits : Limits
  data : List Nat
deriving DecidableEq, Repr

/-- An import descriptor as seen by a host import delegate: the
(module name, field name) pair. -/
structure ImportInfo where
  module_name : String
  field_name : String
deriving DecidableEq, Repr

/-- Modelled from the spec: WABT_MAX_PAGES, the engine-wide page-count cap
from the configuration header (not under src/).  The design document gives
the page size as 65,536 bytes and the cap as at least 65,536 pages; the
constant equals 65,536. -/
def WABT_MAX_PAGES : Nat := 65536

/-- std::vector::resize semantics: truncate to n elements, or extend with
value-initialized (zero) elements up to n. -/
def listResize (l : List Nat) (n : Nat) : List Nat :=
  if n ≤ l.length then l.take n else l ++ List.replicate (n - l.length) 0

/-- SpectestHostImportDelegate::ImportMemory (wasm-interp.cc:376): for field
"memory", set limits to initial 1, max 2, has_max, and resize the byte buffer
to initial * WABT_MAX_PAGES; any other field name is an error. -/
def SpectestHostImportDelegate.ImportMemory (imp : ImportInfo) (memory : Memory) :
    Except String Memory :=
  if imp.field_name = "memory" then
    let limits : Limits := { initial := 1, max := 2, has_max := true }
    Except.ok { page_limits := limits,
                data := listResize memory.data (limits.initial * WABT_MAX_PAGES) }
  else
    Except.error ("unknown host memory import \"" ++ imp.module_name ++ "." ++
                  imp.field_name ++ "\"")

/-- ExternalKind of an export or import: Func, Table, Memory, Global. -/
inductive ExternalKind where
  | Func
  | Table
  | Memory
  | Global
deriving DecidableEq, Repr

/-- An export: (name, kind, index) triple; the index points into the
Environment arrays. -/
structure ExportEntry where
  name : String
  kind : ExternalKind
  index : Nat
deriving DecidableEq, Repr

/-- A function signature: parameter types and result types. -/
structure FuncSignature where
  param_types : List WType
  result_types : List WType
deriving DecidableEq, Repr

/-- Modelled from the spec: an Environment-owned function entry (defined or
host); only its presence in the append-only function vector matters to the
driver code under verification, so it carries its signature index. -/
structure EnvFunc where
  sig_index : Nat
deriving DecidableEq, Repr

/-- A table: limits plus the vector of function indices. -/
structure Table where
  limits : Limits
  func_indexes : List Nat
deriving DecidableEq, Repr

/-- A global: a typed value plus a mutability flag. -/
structure Global where
  typed_value : TypedValue
  mutable_ : Bool
deriving DecidableEq, Repr

/-- Modelled from the spec: an Environment-owned module entry: its name and
its export list (exports have unique names within one module). -/
structure WModule where
  name : String
  exports : List ExportEntry
deriving DecidableEq, Repr

/-- A name binding (struct Binding): the bound index. -/
structure Binding where
  index : Nat
deriving DecidableEq, Repr

/-- Modelled from the spec: the interpreter Environment (interpreter.h, not
under src/): append-only vectors of modules, functions, tables, memories and
globals, plus the module-binding and registered-module-binding name maps.
The maps are modelled as association lists to which bindings are appended. -/
structure Environment where
  modules : List WModule
  funcs : List EnvFunc
  tables : List Table
  memories : List Memory
  globals : List Global
  module_bindings : List (String × Binding)
  registered_module_bindings : List (String × Binding)
deriving DecidableEq, Repr

/-- Modelled from the spec: Environment::MarkPoint snapshots the current
sizes of every Environment vector and of both name-binding maps. -/
structure MarkPoint where
  modules_size : Nat
  funcs_size : Nat
  tables_size : Nat
  memories_size : Nat
  globals_size : Nat
  module_bindings_size : Nat
  registered_module_bindings_size : Nat
deriving DecidableEq, Repr

/-- Modelled from the spec: Environment::Mark records the current sizes. -/
def Environment.Mark (env : Environment) : MarkPoint :=
  { modules_size := env.modules.length,
    funcs_size := env.funcs.length,
    tables_size := env.tables.length,
    memories_size := env.memories.length,
    globals_size := env.globals.length,
    module_bindings_size := env.module_bindings.length,
    registered_module_bindings_size := env.registered_module_bindings.length }

/-- Modelled from the spec: Environment::ResetToMarkPoint truncates every
vector and both maps back to the sizes recorded in the mark, undoing a
failed instantiation. -/
def Environment.ResetToMarkPoint (env : Environment) (mark : MarkPoint) : Environment :=
  { modules := env.modules.take mark.modules_size,
    funcs := env.funcs.take mark.funcs_size,
    tables := env.tables.take mark.tables_size,
    memories := env.memories.take mark.memories_size,
    globals := env.globals.take mark.globals_size,
    module_bindings := env.module_bindings.take mark.module_bindings_size,
    registered_module_bindings :=
      env.registered_module_bindings.take mark.registered_module_bindings_size }

/-- One list extends another by appending a (possibly empty) suffix. -/
def ListExtends {α : Type} (l1 l2 : List α) : Prop :=
  ∃ t, l2 = l1 ++ t

/-- The Environment append-only discipline between two states: every vector
and both maps of the second state extend those of the first. -/
def EnvExtends (e1 e2 : Environment) : Prop :=
  ListExtends e1.modules e2.modules ∧
  ListExtends e1.funcs e2.funcs ∧
  ListExtends e1.tables e2.tables ∧
  ListExtends e1.memories e2.memories ∧
  ListExtends e1.globals e2.globals ∧
  ListExtends e1.module_bindings e2.module_bindings ∧
  ListExtends e1.registered_module_bindings e2.registered_module_bindings

/-- on_assert_unlinkable_command (wasm-interp.cc:1038): bump total, take a
mark, attempt the load (read_invalid_module, abstracted as a state-passing
function returning the grown Environment and the loader's boolean result),
always reset to the mark, and pass exactly when the load failed. -/
def on_assert_unlinkable_command (counts : TestCounts) (env : Environment)
    (load : Environment → Environment × WabtResult) :
    TestCounts × Environment × WabtResult :=
  let counts1 : TestCounts := { counts with total := counts.total + 1 }
  let mark := env.Mark
  let loaded := load env
  let env2 := loaded.1.ResetToMarkPoint mark
  match loaded.2 with
  | WabtResult.Error => ({ counts1 with passed := counts1.passed + 1 }, env2, WabtResult.Ok)
  | WabtResult.Ok => (counts1, env2, WabtResult.Error)

/-- A DefinedModule as used by the driver: its (optional) name and its
start-function index.  The source stores kInvalidIndex as the sentinel for
"no start function"; the sentinel is modelled by Option. -/
structure DefinedModule where
  name : String
  start_func_index : Option Nat
deriving DecidableEq, Repr

/-- The interpreter entry point Thread::RunFunction, abstracted: a function
from a function index and an argument vector to an interpreter result and a
result vector.  The interpreter itself is outside the driver source. -/
def RunFn : Type := Nat → List TypedValue → IResult × List TypedValue

/-- run_start_function (wasm-interp.cc:224): no start function means Ok and
nothing is executed; otherwise run the start function on an empty argument
vector.  The source asserts results.size() == 0 afterwards; a tripped
assertion (the process aborting) is modelled by none. -/
def run_start_function (runFn : RunFn) (m : DefinedModule) : Option IResult :=
  match m.start_func_index with
  | none => some IResult.Ok
  | some idx =>
    let r := runFn idx []
    if r.2.length = 0 then some r.1 else none

/-- Environment::GetModuleCount: the size of the module vector. -/
def Environment.GetModuleCount (env : Environment) : Nat :=
  env.modules.length

/-- Environment::EmplaceModuleBinding: insert a (name, binding) pair into
the module-binding map. -/
def Environment.EmplaceModuleBinding (env : Environment) (name : String)
    (b : Binding) : Environment :=
  { env with module_bindings := env.module_bindings ++ [(name, b)] }

/-- on_module_command (wasm-interp.cc:867): take a mark, read the module
(read_module abstracted as a state-passing function; none models a failed
read), resetting to the mark on a failed read; then run the start function,
resetting to the mark and failing on any non-Ok interpreter result; finally
bind the module name when one was given.  none propagates an aborted
assertion inside run_start_function. -/
def on_module_command (env : Environment)
    (readM : Environment → Environment × Option DefinedModule)
    (runFn : RunFn) (name : String) : Option (Environment × WabtResult) :=
  let mark := env.Mark
  let loaded := readM env
  match loaded.2 with
  | none => some (loaded.1.ResetToMarkPoint mark, WabtResult.Error)
  | some m =>
    match run_start_function runFn m with
    | none => none
    | some iresult =>
      if iresult ≠ IResult.Ok then
        some (loaded.1.ResetToMarkPoint mark, WabtResult.Error)
      else
        if name ≠ "" then
          some (loaded.1.EmplaceModuleBinding name
                  (Binding.mk (loaded.1.GetModuleCount - 1)), WabtResult.Ok)
        else
          some (loaded.1, WabtResult.Ok)

/-- Modelled from the spec: Module::GetExport — look an export up by name in
the module's export list (export names are unique within one module). -/
def WModule.GetExport (m : WModule) (name : String) : Option ExportEntry :=
  m.exports.find? (fun e => e.name = name)

/-- run_export_by_name (wasm-interp.cc:252): UnknownExport when the module
has no export of that name, ExportKindMismatch when the export is not a
function, otherwise run the exported function. -/
def run_export_by_name (runFn : RunFn) (m : WModule) (name : String)
    (args : List TypedValue) : IResult × List TypedValue :=
  match m.GetExport name with
  | none => (IResult.UnknownExport, [])
  | some e =>
    if e.kind ≠ ExternalKind.Func then (IResult.ExportKindMismatch, [])
    else runFn e.index args

/-- get_global_export_by_name (wasm-interp.cc:267): UnknownExport when the
module has no export of that name, ExportKindMismatch when the export is not
a global, otherwise Ok with the global's current typed value as the single
result.  Environment::GetGlobal indexes the global vector without a bounds
check; none models an out-of-range access. -/
def get_global_export_by_name (env : Environment) (m : WModule) (name : String) :
    Option (IResult × List TypedValue) :=
  match m.GetExport name with
  | none => some (IResult.UnknownExport, [])
  | some e =>
    if e.kind ≠ ExternalKind.Global then some (IResult.ExportKindMismatch, [])
    else
      match env.globals.get? e.index with
      | none => none
      | some g => some (IResult.Ok, [g.typed_value])

/-- The comparison loop of on_assert_return_command (wasm-interp.cc:1149):
walk the expected and actual result vectors in step, requiring
typed_values_are_equal at every position. -/
def assert_return_results_match : List TypedValue → List TypedValue → Bool
  | [], [] => true
  | e :: es, r :: rs => typed_values_are_equal e r && assert_return_results_match es rs
  | _, _ => false

/-- on_assert_return_command (wasm-interp.cc:1135): bump total; the command
passes (bumps passed) exactly when the action's invocation (whose
interpreter result and result vector are given) returned Ok, produced as
many results as expected, and every result position compares equal under
typed_values_are_equal.  The returned WabtResult reports pass/fail. -/
def on_assert_return_command (counts : TestCounts) (iresult : IResult)
    (results expected : List TypedValue) : TestCounts × WabtResult :=
  let counts1 : TestCounts := { counts with total := counts.total + 1 }
  let result : WabtResult :=
    if iresult = IResult.Ok then
      if results.length = expected.length then
        if assert_return_results_match expected results then WabtResult.Ok
        else WabtResult.Error
      else WabtResult.Error
    else WabtResult.Error
  match result with
  | WabtResult.Ok => ({ counts1 with passed := counts1.passed + 1 }, WabtResult.Ok)
  | WabtResult.Error => (counts1, WabtResult.Error)

/-- Modelled from the spec: IsCanonicalNan on f32 bits — exponent all ones,
quiet bit set, every other payload bit zero, either sign
(bits masked by 0x7fffffff equal 0x7fc00000). -/
def IsCanonicalNan32 (bits : Nat) : Bool :=
  bits % 2 ^ 31 = 0x7fc00000

/-- Modelled from the spec: IsArithmeticNan on f32 bits — exponent all ones
and the quiet (top payload) bit set (bits masked by 0x7fc00000 equal
0x7fc00000). -/
def IsArithmeticNan32 (bits : Nat) : Bool :=
  (Nat.land bits 0x7fc00000) = 0x7fc00000

/-- Modelled from the spec: IsCanonicalNan on f64 bits
(bits masked by 0x7fffffffffffffff equal 0x7ff8000000000000). -/
def IsCanonicalNan64 (bits : Nat) : Bool :=
  bits % 2 ^ 63 = 0x7ff8000000000000

/-- Modelled from the spec: IsArithmeticNan on f64 bits
(bits masked by 0x7ff8000000000000 equal 0x7ff8000000000000). -/
def IsArithmeticNan64 (bits : Nat) : Bool :=
  (Nat.land bits 0x7ff8000000000000) = 0x7ff8000000000000

/-- on_assert_return_nan_command (wasm-interp.cc:1185): bump total; when the
invocation returned Ok the source records an error if the result count is
not 1 but then reads results[0] unconditionally — the read of an empty
result vector (undefined behavior) is modelled by none.  Otherwise the
command passes exactly when the single result is an f32 or f64 whose bits
satisfy the canonical (canonical = true) or arithmetic NaN predicate.  The
handler itself always returns wabt Ok to its caller (wasm-interp.cc:1247),
so only the updated counters are reported. -/
def on_assert_return_nan_command (counts : TestCounts) (canonical : Bool)
    (iresult : IResult) (results : List TypedValue) : Option TestCounts :=
  let counts1 : TestCounts := { counts with total := counts.total + 1 }
  if iresult = IResult.Ok then
    match results.get? 0 with
    | none => none
    | some actual =>
      let sizeResult : WabtResult :=
        if results.length ≠ 1 then WabtResult.Error else WabtResult.Ok
      let result : WabtResult :=
        match actual.type with
        | WType.F32 =>
          let is_nan := if canonical then IsCanonicalNan32 (actual.bits % 2 ^ 32)
                        else IsArithmeticNan32 (actual.bits % 2 ^ 32)
          if is_nan then sizeResult else WabtResult.Error
        | WType.F64 =>
          let is_nan := if canonical then IsCanonicalNan64 (actual.bits % 2 ^ 64)
                        else IsArithmeticNan64 (actual.bits % 2 ^ 64)
          if is_nan then sizeResult else WabtResult.Error
        | _ => WabtResult.Error
      match result with
      | WabtResult.Ok => some { counts1 with passed := counts1.passed + 1 }
      | WabtResult.Error => some counts1
  else
    some counts1

/-- on_assert_exhaustion_command (wasm-interp.cc:1272): bump total; the
command passes exactly when the action's interpreter result is the
CallStackExhausted or ValueStackExhausted trap; otherwise it fails and
prints the message "expected call stack exhaustion" (the third component). -/
def on_assert_exhaustion_command (counts : TestCounts) (iresult : IResult) :
    TestCounts × WabtResult × Option String :=
  let counts1 : TestCounts := { counts with total := counts.total + 1 }
  if iresult = IResult.TrapCallStackExhausted ∨
     iresult = IResult.TrapValueStackExhausted then
    ({ counts1 with passed := counts1.passed + 1 }, WabtResult.Ok, none)
  else
    (counts1, WabtResult.Error, some "expected call stack exhaustion")

/-- on_action_command (wasm-interp.cc:937): bump total; passes exactly when
the invocation returned Ok. -/
def on_action_command (counts : TestCounts) (iresult : IResult) :
    TestCounts × WabtResult :=
  let counts1 : TestCounts := { counts with total := counts.total + 1 }
  if iresult = IResult.Ok then
    ({ counts1 with passed := counts1.passed + 1 }, WabtResult.Ok)
  else
    (counts1, WabtResult.Error)

/-- on_assert_trap_command (wasm-interp.cc:1250): bump total; passes exactly
when the invocation did not return Ok. -/
def on_assert_trap_command (counts : TestCounts) (iresult : IResult) :
    TestCounts × WabtResult :=
  let counts1 : TestCounts := { counts with total := counts.total + 1 }
  if iresult ≠ IResult.Ok then
    ({ counts1 with passed := counts1.passed + 1 }, WabtResult.Ok)
  else
    (counts1, WabtResult.Error)

/-- The common shape of on_assert_malformed_command (wasm-interp.cc:995),
on_assert_invalid_command (wasm-interp.cc:1061) and the pass/fail decision
of on_assert_unlinkable_command: bump total; passes exactly when reading the
module failed. -/
def on_assert_negative_command (counts : TestCounts) (readResult : WabtResult) :
    TestCounts × WabtResult :=
  let counts1 : TestCounts := { counts with total := counts.total + 1 }
  match readResult with
  | WabtResult.Error => ({ counts1 with passed := counts1.passed + 1 }, WabtResult.Ok)
  | WabtResult.Ok => (counts1, WabtResult.Error)

/-- on_assert_uninstantiable_command (wasm-interp.cc:1084): bump total;
passes exactly when the module was read successfully and its start function
produced a non-Ok interpreter result.  The Environment is reset to the mark
in every case (not modelled here; only the counters are). -/
def on_assert_uninstantiable_command (counts : TestCounts) (readOk : Bool)
    (startResult : IResult) : TestCounts × WabtResult :=
  let counts1 : TestCounts := { counts with total := counts.total + 1 }
  if readOk then
    if startResult = IResult.Ok then (counts1, WabtResult.Error)
    else ({ counts1 with passed := counts1.passed + 1 }, WabtResult.Ok)
  else
    (counts1, WabtResult.Error)

/-- One parsed command of a JSON spec script, carrying the outcomes of its
external effects (module reads and interpreter invocations), which is all
the counter bookkeeping of parse_command (wasm-interp.cc:1292) depends on.
module and register commands never touch the counters. -/
inductive SpecCmd where
  | moduleCmd : SpecCmd
  | registerCmd : SpecCmd
  | actionCmd : IResult → SpecCmd
  | assertMalformedCmd : WabtResult → SpecCmd
  | assertInvalidCmd : WabtResult → SpecCmd
  | assertUnlinkableCmd : WabtResult → SpecCmd
  | assertUninstantiableCmd : Bool → IResult → SpecCmd
  | assertReturnCmd : IResult → List TypedValue → List TypedValue → SpecCmd
  | assertReturnNanCmd : Bool → IResult → List TypedValue → SpecCmd
  | assertTrapCmd : IResult → SpecCmd
  | assertExhaustionCmd : IResult → SpecCmd
deriving DecidableEq, Repr

/-- The effect of one command on the driver's pass/total counters, as
performed by the corresponding on_*_command handler; none propagates the
undefined results[0] read of on_assert_return_nan_command. -/
def runCmdCounts (counts : TestCounts) : SpecCmd → Option TestCounts
  | SpecCmd.moduleCmd => some counts
  | SpecCmd.registerCmd => some counts
  | SpecCmd.actionCmd ir => some (on_action_command counts ir).1
  | SpecCmd.assertMalformedCmd r => some (on_assert_negative_command counts r).1
  | SpecCmd.assertInvalidCmd r => some (on_assert_negative_command counts r).1
  | SpecCmd.assertUnlinkableCmd r => some (on_assert_negative_command counts r).1
  | SpecCmd.assertUninstantiableCmd readOk ir =>
      some (on_assert_uninstantiable_command counts readOk ir).1
  | SpecCmd.assertReturnCmd ir results expected =>
      some (on_assert_return_command counts ir results expected).1
  | SpecCmd.assertReturnNanCmd canonical ir results =>
      on_assert_return_nan_command counts canonical ir results
  | SpecCmd.assertTrapCmd ir => some (on_assert_trap_command counts ir).1
  | SpecCmd.assertExhaustionCmd ir => some (on_assert_exhaustion_command counts ir).1

/-- parse_commands (wasm-interp.cc:1445) restricted to its counter effect:
fold the command list over the Context counters. -/
def runCmdsFrom (counts : TestCounts) : List SpecCmd → Option TestCounts
  | [] => some counts
  | c :: cs =>
    match runCmdCounts counts c with
    | none => none
    | some counts2 => runCmdsFrom counts2 cs

/-- read_and_run_spec_json (wasm-interp.cc:1462) restricted to its counter
effect: the Context starts with passed = 0, total = 0. -/
def runCmds (cmds : List SpecCmd) : Option TestCounts :=
  runCmdsFrom (TestCounts.mk 0 0) cmds

/-- The single trailing summary line printed by read_and_run_spec_json
(wasm-interp.cc:1474): printf of passed, a slash, total, and the suffix
" tests passed." followed by a newline. -/
def spec_json_summary_line (cmds : List SpecCmd) : Option String :=
  match runCmds cmds with
  | none => none
  | some counts =>
    some (toString counts.passed ++ "/" ++ toString counts.total ++ " tests passed.")

/-- The command-line options of wasm-interp that parse_options
(wasm-interp.cc:81) recognizes, in the order given on the command line. -/
inductive ProgOption where
  | verbose : ProgOption
  | valueStackSize : Nat → ProgOption
  | callStackSize : Nat → ProgOption
  | traceOpt : ProgOption
  | specOpt : ProgOption
  | runAllExports : ProgOption
deriving DecidableEq, Repr

/-- The option-controlled configuration of wasm-interp: the static flags set
by the parser callbacks.  The stack-size defaults (16 Ki values, 1 Ki
frames) are modelled from the spec; the Thread::Options defaults live
outside the driver source. -/
structure ProgConfig where
  s_verbose : Nat
  value_stack_size : Nat
  call_stack_size : Nat
  s_trace : Bool
  s_spec : Bool
  s_run_all_exports : Bool
deriving DecidableEq, Repr

/-- The configuration before any option callback has run. -/
def initConfig : ProgConfig :=
  { s_verbose := 0,
    value_stack_size := 16 * 1024,
    call_stack_size := 1024,
    s_trace := false,
    s_spec := false,
    s_run_all_exports := false }

/-- The effect of a single option callback on the configuration
(wasm-interp.cc:84..108). -/
def applyOption (cfg : ProgConfig) : ProgOption → ProgConfig
  | ProgOption.verbose => { cfg with s_verbose := cfg.s_verbose + 1 }
  | ProgOption.valueStackSize n => { cfg with value_stack_size := n }
  | ProgOption.callStackSize n => { cfg with call_stack_size := n }
  | ProgOption.traceOpt => { cfg with s_trace := true }
  | ProgOption.specOpt => { cfg with s_spec := true }
  | ProgOption.runAllExports => { cfg with s_run_all_exports := true }

/-- parse_options (wasm-interp.cc:81): run every option callback in order,
then abort with a fatal error when both --spec and --run-all-exports were
given (wasm-interp.cc:114). -/
def parse_options (args : List ProgOption) : Except String ProgConfig :=
  let cfg := args.foldl applyOption initConfig
  if cfg.s_spec && cfg.s_run_all_exports then
    Except.error "--spec and --run-all-exports are incompatible.\n"
  else
    Except.ok cfg

/-- ProgramMain (wasm-interp.cc:1478): parse the options first; only with a
successfully parsed configuration is the input file read and run, through
read_and_run_spec_json when --spec was given and read_and_run_module
otherwise.  The two file-consuming stages are abstract parameters, so a
fatal error during option parsing happens before any input file is read. -/
def ProgramMain (args : List ProgOption) (filename : String)
    (runSpecJson : String → WabtResult) (runModuleFile : String → WabtResult) :
    Except String Nat :=
  match parse_options args with
  | Except.error e => Except.error e
  | Except.ok cfg =>
    let result := if cfg.s_spec then runSpecJson filename else runModuleFile filename
    Except.ok (if result = WabtResult.Ok then 0 else 1)

/-- A sample environment for concrete evaluations: one module, nothing else. -/
def sampleEnv : Environment :=
  Environment.mk [WModule.mk "spectest" []] [] [] [] [] [] []

/-- A sample failing loader: appends one function entry and reports Error,
as a load that fails partway through does. -/
def sampleFailLoad (env : Environment) : Environment × WabtResult :=
  ({ env with funcs := env.funcs ++ [EnvFunc.mk 0] }, WabtResult.Error)

/-- A sample module with a start function at index 0. -/
def sampleStartModule : DefinedModule :=
  DefinedModule.mk "m" (some 0)

/-- A sample module reader: appends the module entry and returns
sampleStartModule. -/
def sampleReadM (env : Environment) : Environment × Option DefinedModule :=
  ({ env with modules := env.modules ++ [WModule.mk "m" []] }, some sampleStartModule)

/-- A sample interpreter run that traps with Unreachable and no results. -/
def sampleTrapRun : RunFn := fun _ _ => (IResult.TrapUnreachable, [])

/-- A sample interpreter run that returns Ok and no results. -/
def sampleOkRun : RunFn := fun _ _ => (IResult.Ok, [])

/-- A sample module with one func export, one global export and one table
export. -/
def sampleExpModule : WModule :=
  WModule.mk "M"
    [ExportEntry.mk "f" ExternalKind.Func 0,
     ExportEntry.mk "g" ExternalKind.Global 0,
     ExportEntry.mk "t" ExternalKind.Table 0]

/-- A sample environment holding one global (i32 666, immutable). -/
def sampleGlobalEnv : Environment :=
  Environment.mk [] [] [] [] [Global.mk (TypedValue.mk WType.I32 666) false] [] []

/-- listResize always produces a list of exactly the requested length. -/
theorem listResize_length (l : List Nat) (n : Nat) : (listResize l n).length = n := by
  unfold listResize
  split
  · simp only [List.length_take]
    omega
  · simp only [List.length_append, List.length_replicate]
    omega

/-- C1: when a module imports field "memory" from the registered spectest
host module, ImportMemory succeeds, sets the memory limits to initial 1 page
with has_max and max 2 pages, and sizes the byte buffer to
initial * 65,536 = 65,536 bytes. -/
theorem C1_spectest_import_memory (imp : ImportInfo) (memory : Memory)
    (h : imp.field_name = "memory") :
    ∃ memory2 : Memory,
      SpectestHostImportDelegate.ImportMemory imp memory = Except.ok memory2 ∧
      memory2.page_limits.initial = 1 ∧
      memory2.page_limits.has_max = true ∧
      memory2.page_limits.max = 2 ∧
      memory2.data.length = memory2.page_limits.initial * 65536 ∧
      memory2.data.length = 65536 := by
  have hmem : SpectestHostImportDelegate.ImportMemory imp memory =
      Except.ok (Memory.mk (Limits.mk 1 2 true)
        (listResize memory.data (1 * WABT_MAX_PAGES))) := by
    simp [SpectestHostImportDelegate.ImportMemory, h]
  refine ⟨_, hmem, rfl, rfl, rfl, ?_, ?_⟩ <;>
    simp [listResize_length, WABT_MAX_PAGES]

/-- C1 witness: the spectest "memory" import applied to an empty memory. -/
theorem C1_spectest_import_memory_witness :
    ∃ memory2 : Memory,
      SpectestHostImportDelegate.ImportMemory (ImportInfo.mk "spectest" "memory")
        (Memory.mk (Limits.mk 0 0 false) []) = Except.ok memory2 ∧
      memory2.page_limits.initial = 1 ∧
      memory2.page_limits.has_max = true ∧
      memory2.page_limits.max = 2 ∧
      memory2.data.length = memory2.page_limits.initial * 65536 ∧
      memory2.data.length = 65536 :=
  C1_spectest_import_memory (ImportInfo.mk "spectest" "memory")
    (Memory.mk (Limits.mk 0 0 false) []) rfl

/-- Truncating the extension of a list back to the original length recovers
the original list. -/
theorem ListExtends.take_eq {α : Type} {l1 l2 : List α} (h : ListExtends l1 l2) :
    l2.take l1.length = l1 := by
  obtain ⟨t, rfl⟩ := h
  exact List.take_left l1 t

/-- Resetting to a mark taken before an append-only extension recovers the
original Environment exactly. -/
theorem EnvExtends.reset_eq {e1 e2 : Environment} (h : EnvExtends e1 e2) :
    e2.ResetToMarkPoint e1.Mark = e1 := by
  obtain ⟨hm, hf, ht, hme, hg, hb, hr⟩ := h
  cases e1
  simp only [Environment.ResetToMarkPoint, Environment.Mark, Environment.mk.injEq]
  exact ⟨hm.take_eq, hf.take_eq, ht.take_eq, hme.take_eq, hg.take_eq,
         hb.take_eq, hr.take_eq⟩

/-- C3: an assert_unlinkable command takes a mark before the load and resets
to it afterwards, so as long as the load grows the Environment append-only,
the command leaves the Environment exactly as it was: every vector and both
name-binding maps (hence all their sizes) equal their values at the mark.
The assertion counts one attempt and passes exactly when the load failed. -/
theorem C3_assert_unlinkable_rollback (counts : TestCounts) (env : Environment)
    (load : Environment → Environment × WabtResult)
    (h : EnvExtends env (load env).1) :
    (on_assert_unlinkable_command counts env load).2.1 = env ∧
    (on_assert_unlinkable_command counts env load).1.total = counts.total + 1 ∧
    ((on_assert_unlinkable_command counts env load).2.2 = WabtResult.Ok ↔
      (load env).2 = WabtResult.Error) := by
  unfold on_assert_unlinkable_command
  refine ⟨?_, ?_, ?_⟩
  · cases hres : (load env).2 <;> simp only [hres, h.reset_eq]
  · cases hres : (load env).2 <;> simp only [hres]
  · cases hres : (load env).2 <;> simp [hres]

/-- C3 witness: a failing load that appends one function entry to a
one-module environment is rolled back completely. -/
theorem C3_assert_unlinkable_rollback_witness :
    (on_assert_unlinkable_command (TestCounts.mk 0 0) sampleEnv sampleFailLoad).2.1 =
      sampleEnv ∧
    (on_assert_unlinkable_command (TestCounts.mk 0 0) sampleEnv sampleFailLoad).1.total =
      (TestCounts.mk 0 0).total + 1 ∧
    ((on_assert_unlinkable_command (TestCounts.mk 0 0) sampleEnv sampleFailLoad).2.2 =
        WabtResult.Ok ↔
      (sampleFailLoad sampleEnv).2 = WabtResult.Error) :=
  C3_assert_unlinkable_rollback (TestCounts.mk 0 0) sampleEnv sampleFailLoad
    ⟨⟨[], by simp [sampleFailLoad]⟩, ⟨[EnvFunc.mk 0], by simp [sampleFailLoad]⟩,
     ⟨[], by simp [sampleFailLoad]⟩, ⟨[], by simp [sampleFailLoad]⟩,
     ⟨[], by simp [sampleFailLoad]⟩, ⟨[], by simp [sampleFailLoad]⟩,
     ⟨[], by simp [sampleFailLoad]⟩⟩

/-- typed_values_are_equal holds exactly when the type tags agree and the
fixed-width payload bits agree. -/
theorem typed_values_are_equal_iff (tv1 tv2 : TypedValue) :
    typed_values_are_equal tv1 tv2 = true ↔
      (tv1.type = tv2.type ∧ tv1.payload = tv2.payload) := by
  cases tv1 with
  | mk t1 b1 =>
    cases tv2 with
    | mk t2 b2 =>
      cases t1 <;> cases t2 <;>
        simp [typed_values_are_equal, TypedValue.payload, payloadWidth]

/-- The assert_return comparison loop holds exactly when the vectors have
equal lengths and are bit-equal position by position. -/
theorem assert_return_results_match_iff (es rs : List TypedValue) :
    assert_return_results_match es rs = true ↔
      List.Forall₂ (fun e r => e.type = r.type ∧ e.payload = r.payload) es rs := by
  induction es generalizing rs with
  | nil =>
    cases rs <;> simp [assert_return_results_match]
  | cons e es ih =>
    cases rs with
    | nil => simp [assert_return_results_match]
    | cons r rs =>
      simp [assert_return_results_match, typed_values_are_equal_iff, ih]

/-- The assert_return comparison loop, phrased position by position. -/
theorem assert_return_results_match_iff_get (es rs : List TypedValue) :
    assert_return_results_match es rs = true ↔
      (es.length = rs.length ∧
        ∀ (i : ℕ) (h1 : i < es.length) (h2 : i < rs.length),
          (es.get ⟨i, h1⟩).type = (rs.get ⟨i, h2⟩).type ∧
          (es.get ⟨i, h1⟩).payload = (rs.get ⟨i, h2⟩).payload) := by
  rw [assert_return_results_match_iff, List.forall₂_iff_get]

/-- Characterization of on_assert_return_command as a single conditional. -/
theorem on_assert_return_command_eq (counts : TestCounts) (iresult : IResult)
    (results expected : List TypedValue) :
    on_assert_return_command counts iresult results expected =
      if iresult = IResult.Ok ∧ results.length = expected.length ∧
          assert_return_results_match expected results = true then
        ({ passed := counts.passed + 1, total := counts.total + 1 }, WabtResult.Ok)
      else
        ({ passed := counts.passed, total := counts.total + 1 }, WabtResult.Error) := by
  unfold on_assert_return_command
  by_cases h1 : iresult = IResult.Ok <;>
    by_cases h2 : results.length = expected.length <;>
      by_cases h3 : assert_return_results_match expected results = true <;>
        simp [h1, h2, h3]

/-- C2: the assert_return command passes (increments the passed counter, one
attempt being counted) exactly when the invocation returned Ok, produced as
many results as expected, and every result agrees with the corresponding
expected value in both type tag and raw payload bits (integers as unsigned
values, floats as bit patterns, so NaN payloads and zero signs must match
exactly); the reported WabtResult is Ok in the same cases. -/
theorem C2_assert_return_pass_iff (counts : TestCounts) (iresult : IResult)
    (results expected : List TypedValue) :
    ((on_assert_return_command counts iresult results expected).1.passed =
        counts.passed + 1 ∧
     (on_assert_return_command counts iresult results expected).1.total =
        counts.total + 1 ∧
     (on_assert_return_command counts iresult results expected).2 = WabtResult.Ok) ↔
      (iresult = IResult.Ok ∧ results.length = expected.length ∧
        ∀ (i : ℕ) (h1 : i < expected.length) (h2 : i < results.length),
          (expected.get ⟨i, h1⟩).type = (results.get ⟨i, h2⟩).type ∧
          (expected.get ⟨i, h1⟩).payload = (results.get ⟨i, h2⟩).payload) := by
  rw [on_assert_return_command_eq]
  constructor
  · intro h
    by_cases hcond : iresult = IResult.Ok ∧ results.length = expected.length ∧
        assert_return_results_match expected results = true
    · have hget := (assert_return_results_match_iff_get expected results).mp hcond.2.2
      exact ⟨hcond.1, hcond.2.1, hget.2⟩
    · rw [if_neg hcond] at h
      exact absurd h.2.2 (by simp)
  · intro h
    have hmatch : assert_return_results_match expected results = true := by
      rw [assert_return_results_match_iff_get]
      exact ⟨h.2.1.symm, h.2.2⟩
    rw [if_pos ⟨h.1, h.2.1, hmatch⟩]
    exact ⟨rfl, rfl, rfl⟩

/-- C2 witness: a single i32 result equal to the single expected value
passes. -/
theorem C2_assert_return_pass_iff_witness :
    (on_assert_return_command (TestCounts.mk 0 0) IResult.Ok
        [TypedValue.mk WType.I32 7] [TypedValue.mk WType.I32 7]).1.passed =
      (TestCounts.mk 0 0).passed + 1 ∧
    (on_assert_return_command (TestCounts.mk 0 0) IResult.Ok
        [TypedValue.mk WType.I32 7] [TypedValue.mk WType.I32 7]).1.total =
      (TestCounts.mk 0 0).total + 1 ∧
    (on_assert_return_command (TestCounts.mk 0 0) IResult.Ok
        [TypedValue.mk WType.I32 7] [TypedValue.mk WType.I32 7]).2 =
      WabtResult.Ok :=
  (C2_assert_return_pass_iff (TestCounts.mk 0 0) IResult.Ok
      [TypedValue.mk WType.I32 7] [TypedValue.mk WType.I32 7]).mpr
    ⟨rfl, rfl, fun i h1 _ => by
      have hi : i = 0 := by
        simp only [List.length_singleton] at h1
        omega
      subst hi
      exact ⟨rfl, rfl⟩⟩

/-- C4: for a successfully read module, the driver runs the start function
only when one exists: with no start function nothing runs and the command
succeeds; with a start function it is invoked on the empty argument vector,
a nonempty result vector trips the assertion, and any non-Ok interpreter
result makes the command reset the Environment to the pre-load mark and
fail. -/
theorem C4_module_command_start (env env2 : Environment)
    (readM : Environment → Environment × Option DefinedModule)
    (runFn : RunFn) (m : DefinedModule) (name : String)
    (hread : readM env = (env2, some m)) (hext : EnvExtends env env2) :
    (m.start_func_index = none →
      run_start_function runFn m = some IResult.Ok ∧
      ∃ envOut, on_module_command env readM runFn name =
        some (envOut, WabtResult.Ok)) ∧
    (∀ idx iresult, m.start_func_index = some idx → runFn idx [] = (iresult, []) →
      run_start_function runFn m = some iresult ∧
      (iresult ≠ IResult.Ok →
        on_module_command env readM runFn name = some (env, WabtResult.Error))) ∧
    (∀ idx, m.start_func_index = some idx → (runFn idx []).2 ≠ [] →
      run_start_function runFn m = none) := by
  refine ⟨?_, ?_, ?_⟩
  · intro hnone
    have hrun : run_start_function runFn m = some IResult.Ok := by
      unfold run_start_function
      rw [hnone]
    refine ⟨hrun, ?_⟩
    unfold on_module_command
    rw [hread]
    simp only [hrun]
    by_cases hname : name = "" <;> simp [hname]
  · intro idx iresult hsome hcall
    have hrun : run_start_function runFn m = some iresult := by
      simp [run_start_function, hsome, hcall]
    refine ⟨hrun, ?_⟩
    intro hne
    unfold on_module_command
    rw [hread]
    simp only [hrun]
    simp [hne, hext.reset_eq]
  · intro idx hsome hres
    simp [run_start_function, hsome, List.length_eq_zero, hres]

/-- C4 witness: a module whose start function traps with Unreachable makes
the module command fail and roll the Environment back. -/
theorem C4_module_command_start_witness :
    run_start_function sampleTrapRun sampleStartModule =
      some IResult.TrapUnreachable ∧
    on_module_command sampleEnv sampleReadM sampleTrapRun "m" =
      some (sampleEnv, WabtResult.Error) := by
  have h := C4_module_command_start sampleEnv (sampleReadM sampleEnv).1 sampleReadM
    sampleTrapRun sampleStartModule "m" rfl
    ⟨⟨[WModule.mk "m" []], by simp [sampleReadM]⟩, ⟨[], by simp [sampleReadM]⟩,
     ⟨[], by simp [sampleReadM]⟩, ⟨[], by simp [sampleReadM]⟩,
     ⟨[], by simp [sampleReadM]⟩, ⟨[], by simp [sampleReadM]⟩,
     ⟨[], by simp [sampleReadM]⟩⟩
  have h2 := h.2.1 0 IResult.TrapUnreachable rfl rfl
  exact ⟨h2.1, h2.2 (by simp)⟩

/-- C9: when the invocation of an assert_return_canonical_nan or
assert_return_arithmetic_nan action returns Ok with zero results, the
handler records the wrong-result-count error but still reads results[0],
indexing past the end of the empty result vector (the out-of-bounds access
is modelled by the none outcome). -/
theorem C9_assert_return_nan_oob (counts : TestCounts) (canonical : Bool) :
    on_assert_return_nan_command counts canonical IResult.Ok [] = none ∧
    (([] : List TypedValue).get? 0 = none) := by
  constructor
  · unfold on_assert_return_nan_command
    simp
  · rfl

/-- The payload of an f32-typed value is its low 32 bits. -/
theorem payload_eq_32 (tv : TypedValue) (h : tv.type = WType.F32) :
    tv.payload = tv.bits % 2 ^ 32 := by
  simp [TypedValue.payload, h, payloadWidth]

/-- The payload of an f64-typed value is its low 64 bits. -/
theorem payload_eq_64 (tv : TypedValue) (h : tv.type = WType.F64) :
    tv.payload = tv.bits % 2 ^ 64 := by
  simp [TypedValue.payload, h, payloadWidth]

/-- The NaN assert handler on an Ok invocation with a single result: it
passes exactly when the result is a float whose bits satisfy the selected
NaN predicate. -/
theorem on_assert_return_nan_single (counts : TestCounts) (canonical : Bool)
    (tv : TypedValue) :
    on_assert_return_nan_command counts canonical IResult.Ok [tv] =
      (if (tv.type = WType.F32 ∧
            (if canonical then IsCanonicalNan32 (tv.bits % 2 ^ 32)
             else IsArithmeticNan32 (tv.bits % 2 ^ 32)) = true) ∨
          (tv.type = WType.F64 ∧
            (if canonical then IsCanonicalNan64 (tv.bits % 2 ^ 64)
             else IsArithmeticNan64 (tv.bits % 2 ^ 64)) = true) then
        some { passed := counts.passed + 1, total := counts.total + 1 }
      else
        some { passed := counts.passed, total := counts.total + 1 }) := by
  unfold on_assert_return_nan_command
  cases htv : tv.type
  · simp [htv]
  · simp [htv]
  · cases canonical <;>
      (simp [htv]; split_ifs with h <;> rfl)
  · cases canonical <;>
      (simp [htv]; split_ifs with h <;> rfl)

/-- The NaN assert handler on an Ok invocation with two or more results:
the wrong-result-count error always makes the command fail. -/
theorem on_assert_return_nan_multi (counts : TestCounts) (canonical : Bool)
    (tv tv2 : TypedValue) (rest : List TypedValue) :
    on_assert_return_nan_command counts canonical IResult.Ok (tv :: tv2 :: rest) =
      some { passed := counts.passed, total := counts.total + 1 } := by
  unfold on_assert_return_nan_command
  cases htv : tv.type <;> simp [htv]

/-- The NaN assert handler on a non-Ok invocation: the trap always makes the
command fail. -/
theorem on_assert_return_nan_trap (counts : TestCounts) (canonical : Bool)
    (iresult : IResult) (results : List TypedValue) (h : iresult ≠ IResult.Ok) :
    on_assert_return_nan_command counts canonical iresult results =
      some { passed := counts.passed, total := counts.total + 1 } := by
  unfold on_assert_return_nan_command
  simp [h]

/-- C5: an assert_return_canonical_nan (canonical = true) or
assert_return_arithmetic_nan (canonical = false) command passes — one
attempt counted and the passed counter incremented — exactly when the
invocation returned Ok with a single result whose type is f32 or f64 and
whose payload bits satisfy the corresponding NaN predicate; an integer
result, a wrong result count, or any trap never passes. -/
theorem C5_assert_return_nan_pass_iff (counts : TestCounts) (canonical : Bool)
    (iresult : IResult) (results : List TypedValue) :
    (∃ counts2,
        on_assert_return_nan_command counts canonical iresult results = some counts2 ∧
        counts2.passed = counts.passed + 1 ∧ counts2.total = counts.total + 1) ↔
      (iresult = IResult.Ok ∧
        ∃ tv, results = [tv] ∧
          ((tv.type = WType.F32 ∧
             (if canonical then IsCanonicalNan32 tv.payload
              else IsArithmeticNan32 tv.payload) = true) ∨
           (tv.type = WType.F64 ∧
             (if canonical then IsCanonicalNan64 tv.payload
              else IsArithmeticNan64 tv.payload) = true))) := by
  by_cases hir : iresult = IResult.Ok
  · subst hir
    cases results with
    | nil =>
      have hnone : on_assert_return_nan_command counts canonical IResult.Ok [] =
          none := by
        unfold on_assert_return_nan_command
        simp
      rw [hnone]
      constructor
      · rintro ⟨c2, hc2, _⟩
        cases hc2
      · rintro ⟨_, tv, htv, _⟩
        cases htv
    | cons tv rest =>
      cases rest with
      | nil =>
        rw [on_assert_return_nan_single]
        by_cases hcond : (tv.type = WType.F32 ∧
              (if canonical then IsCanonicalNan32 (tv.bits % 2 ^ 32)
               else IsArithmeticNan32 (tv.bits % 2 ^ 32)) = true) ∨
            (tv.type = WType.F64 ∧
              (if canonical then IsCanonicalNan64 (tv.bits % 2 ^ 64)
               else IsArithmeticNan64 (tv.bits % 2 ^ 64)) = true)
        · rw [if_pos hcond]
          constructor
          · intro _
            refine ⟨rfl, tv, rfl, ?_⟩
            rcases hcond with ⟨ht, hp⟩ | ⟨ht, hp⟩
            · exact Or.inl ⟨ht, by rw [payload_eq_32 tv ht]; exact hp⟩
            · exact Or.inr ⟨ht, by rw [payload_eq_64 tv ht]; exact hp⟩
          · intro _
            exact ⟨_, rfl, rfl, rfl⟩
        · rw [if_neg hcond]
          constructor
          · rintro ⟨c2, hc2, hp, _⟩
            have : c2 = { passed := counts.passed, total := counts.total + 1 } := by
              cases hc2
              rfl
            subst this
            simp at hp
          · rintro ⟨_, tv2, htv2, hcase⟩
            have htv : tv2 = tv := by
              cases htv2
              rfl
            subst htv
            exfalso
            apply hcond
            rcases hcase with ⟨ht, hp⟩ | ⟨ht, hp⟩
            · exact Or.inl ⟨ht, by rw [payload_eq_32 tv2 ht] at hp; exact hp⟩
            · exact Or.inr ⟨ht, by rw [payload_eq_64 tv2 ht] at hp; exact hp⟩
      | cons tv2 rest2 =>
        rw [on_assert_return_nan_multi]
        constructor
        · rintro ⟨c2, hc2, hp, _⟩
          have : c2 = { passed := counts.passed, total := counts.total + 1 } := by
            cases hc2
            rfl
          subst this
          simp at hp
        · rintro ⟨_, tv3, htv3, _⟩
          cases htv3
  · rw [on_assert_return_nan_trap counts canonical iresult results hir]
    constructor
    · rintro ⟨c2, hc2, hp, _⟩
      have : c2 = { passed := counts.passed, total := counts.total + 1 } := by
        cases hc2
        rfl
      subst this
      simp at hp
    · rintro ⟨h1, _⟩
      exact absurd h1 hir

/-- C5 witness: an Ok invocation returning the single canonical f32 NaN
0x7fc00000 passes assert_return_canonical_nan. -/
theorem C5_assert_return_nan_pass_iff_witness :
    ∃ counts2,
      on_assert_return_nan_command (TestCounts.mk 0 0) true IResult.Ok
          [TypedValue.mk WType.F32 0x7fc00000] = some counts2 ∧
      counts2.passed = (TestCounts.mk 0 0).passed + 1 ∧
      counts2.total = (TestCounts.mk 0 0).total + 1 :=
  (C5_assert_return_nan_pass_iff (TestCounts.mk 0 0) true IResult.Ok
      [TypedValue.mk WType.F32 0x7fc00000]).mpr
    ⟨rfl, TypedValue.mk WType.F32 0x7fc00000, rfl, Or.inl ⟨rfl, by decide⟩⟩

/-- C6: an assert_exhaustion command counts one attempt and passes exactly
when the interpreter result is the CallStackExhausted or ValueStackExhausted
trap; any other result (Ok included) fails the command with the printed
message "expected call stack exhaustion". -/
theorem C6_assert_exhaustion_pass_iff (counts : TestCounts) (iresult : IResult) :
    (on_assert_exhaustion_command counts iresult).1.total = counts.total + 1 ∧
    ((iresult = IResult.TrapCallStackExhausted ∨
      iresult = IResult.TrapValueStackExhausted) →
      on_assert_exhaustion_command counts iresult =
        ({ passed := counts.passed + 1, total := counts.total + 1 },
         WabtResult.Ok, none)) ∧
    (iresult ≠ IResult.TrapCallStackExhausted →
      iresult ≠ IResult.TrapValueStackExhausted →
      on_assert_exhaustion_command counts iresult =
        ({ passed := counts.passed, total := counts.total + 1 },
         WabtResult.Error, some "expected call stack exhaustion")) := by
  refine ⟨?_, ?_, ?_⟩
  · unfold on_assert_exhaustion_command
    split <;> rfl
  · intro h
    unfold on_assert_exhaustion_command
    rw [if_pos h]
  · intro h1 h2
    unfold on_assert_exhaustion_command
    rw [if_neg (by simp [h1, h2])]

/-- C6 witness: a CallStackExhausted trap passes, with no error message. -/
theorem C6_assert_exhaustion_pass_iff_witness :
    (on_assert_exhaustion_command (TestCounts.mk 0 0)
        IResult.TrapCallStackExhausted).1.total = (TestCounts.mk 0 0).total + 1 ∧
    on_assert_exhaustion_command (TestCounts.mk 0 0)
        IResult.TrapCallStackExhausted =
      ({ passed := (TestCounts.mk 0 0).passed + 1,
         total := (TestCounts.mk 0 0).total + 1 }, WabtResult.Ok, none) :=
  ⟨(C6_assert_exhaustion_pass_iff (TestCounts.mk 0 0)
      IResult.TrapCallStackExhausted).1,
   (C6_assert_exhaustion_pass_iff (TestCounts.mk 0 0)
      IResult.TrapCallStackExhausted).2.1 (Or.inl rfl)⟩

/-- C7: an invoke action on a missing export returns UnknownExport without
running anything (the outcome is the same for every interpreter), on a
non-function export returns ExportKindMismatch; a get action returns
UnknownExport for a missing export, ExportKindMismatch for a non-global
export, and otherwise Ok with the global's current typed value as the single
result. -/
theorem C7_export_kind_dispatch (runFn : RunFn) (m : WModule) (name : String)
    (args : List TypedValue) (env : Environment) :
    (m.GetExport name = none →
      (∀ runFn2 : RunFn,
        run_export_by_name runFn2 m name args = (IResult.UnknownExport, [])) ∧
      get_global_export_by_name env m name = some (IResult.UnknownExport, [])) ∧
    (∀ e, m.GetExport name = some e → e.kind ≠ ExternalKind.Func →
      run_export_by_name runFn m name args = (IResult.ExportKindMismatch, [])) ∧
    (∀ e, m.GetExport name = some e → e.kind ≠ ExternalKind.Global →
      get_global_export_by_name env m name = some (IResult.ExportKindMismatch, [])) ∧
    (∀ e g, m.GetExport name = some e → e.kind = ExternalKind.Global →
      env.globals.get? e.index = some g →
      get_global_export_by_name env m name = some (IResult.Ok, [g.typed_value])) := by
  refine ⟨?_, ?_, ?_, ?_⟩
  · intro hnone
    constructor
    · intro runFn2
      unfold run_export_by_name
      rw [hnone]
    · unfold get_global_export_by_name
      rw [hnone]
  · intro e hsome hkind
    unfold run_export_by_name
    rw [hsome]
    simp [hkind]
  · intro e hsome hkind
    unfold get_global_export_by_name
    rw [hsome]
    simp [hkind]
  · intro e g hsome hkind hglobal
    unfold get_global_export_by_name
    rw [hsome]
    rw [List.get?_eq_getElem?] at hglobal
    simp [hkind, hglobal]

/-- C7 witness: on a module exporting function "f", global "g" and table
"t", the five outcomes at concrete names. -/
theorem C7_export_kind_dispatch_witness :
    run_export_by_name sampleOkRun sampleExpModule "nope" [] =
      (IResult.UnknownExport, []) ∧
    get_global_export_by_name sampleGlobalEnv sampleExpModule "nope" =
      some (IResult.UnknownExport, []) ∧
    run_export_by_name sampleOkRun sampleExpModule "g" [] =
      (IResult.ExportKindMismatch, []) ∧
    get_global_export_by_name sampleGlobalEnv sampleExpModule "t" =
      some (IResult.ExportKindMismatch, []) ∧
    get_global_export_by_name sampleGlobalEnv sampleExpModule "g" =
      some (IResult.Ok, [TypedValue.mk WType.I32 666]) := by
  refine ⟨?_, ?_, ?_, ?_, ?_⟩
  · exact ((C7_export_kind_dispatch sampleOkRun sampleExpModule "nope" []
      sampleGlobalEnv).1 (by decide)).1 sampleOkRun
  · exact ((C7_export_kind_dispatch sampleOkRun sampleExpModule "nope" []
      sampleGlobalEnv).1 (by decide)).2
  · exact (C7_export_kind_dispatch sampleOkRun sampleExpModule "g" []
      sampleGlobalEnv).2.1 (ExportEntry.mk "g" ExternalKind.Global 0)
      (by decide) (by decide)
  · exact (C7_export_kind_dispatch sampleOkRun sampleExpModule "t" []
      sampleGlobalEnv).2.2.1 (ExportEntry.mk "t" ExternalKind.Table 0)
      (by decide) (by decide)
  · exact (C7_export_kind_dispatch sampleOkRun sampleExpModule "g" []
      sampleGlobalEnv).2.2.2 (ExportEntry.mk "g" ExternalKind.Global 0)
      (Global.mk (TypedValue.mk WType.I32 666) false)
      (by decide) rfl (by decide)

/-- Every command handler preserves passed ≤ total: each counts exactly one
attempt (or none for module/register) and at most one pass. -/
theorem runCmdCounts_invariant (counts counts2 : TestCounts) (cmd : SpecCmd)
    (h : runCmdCounts counts cmd = some counts2)
    (hinv : counts.passed ≤ counts.total) :
    counts2.passed ≤ counts2.total := by
  cases cmd with
  | moduleCmd =>
    simp only [runCmdCounts, Option.some.injEq] at h
    subst h
    exact hinv
  | registerCmd =>
    simp only [runCmdCounts, Option.some.injEq] at h
    subst h
    exact hinv
  | actionCmd ir =>
    simp only [runCmdCounts, on_action_command, Option.some.injEq] at h
    split at h <;> (subst h; dsimp only; omega)
  | assertMalformedCmd r =>
    simp only [runCmdCounts, on_assert_negative_command, Option.some.injEq] at h
    split at h <;> (subst h; dsimp only; omega)
  | assertInvalidCmd r =>
    simp only [runCmdCounts, on_assert_negative_command, Option.some.injEq] at h
    split at h <;> (subst h; dsimp only; omega)
  | assertUnlinkableCmd r =>
    simp only [runCmdCounts, on_assert_negative_command, Option.some.injEq] at h
    split at h <;> (subst h; dsimp only; omega)
  | assertUninstantiableCmd readOk ir =>
    simp only [runCmdCounts, on_assert_uninstantiable_command,
      Option.some.injEq] at h
    split at h <;> (try split at h) <;> (subst h; dsimp only; omega)
  | assertReturnCmd ir results expected =>
    rw [runCmdCounts] at h
    rw [on_assert_return_command_eq] at h
    split at h <;>
      (simp only [Option.some.injEq] at h; subst h; dsimp only; omega)
  | assertReturnNanCmd canonical ir results =>
    rw [runCmdCounts] at h
    by_cases hir : ir = IResult.Ok
    · subst hir
      cases results with
      | nil =>
        rw [show on_assert_return_nan_command counts canonical IResult.Ok [] =
            none from by unfold on_assert_return_nan_command; simp] at h
        cases h
      | cons tv rest =>
        cases rest with
        | nil =>
          rw [on_assert_return_nan_single] at h
          split at h <;> (try split at h) <;>
            (simp only [Option.some.injEq] at h; subst h; dsimp only; omega)
        | cons tv2 rest2 =>
          rw [on_assert_return_nan_multi] at h
          simp only [Option.some.injEq] at h
          subst h
          dsimp only
          omega
    · rw [on_assert_return_nan_trap counts canonical ir results hir] at h
      simp only [Option.some.injEq] at h
      subst h
      dsimp only
      omega
  | assertTrapCmd ir =>
    simp only [runCmdCounts, on_assert_trap_command, Option.some.injEq] at h
    split at h <;> (subst h; dsimp only; omega)
  | assertExhaustionCmd ir =>
    simp only [runCmdCounts, on_assert_exhaustion_command, Option.some.injEq] at h
    split at h <;> (subst h; dsimp only; omega)

/-- The command fold preserves passed ≤ total. -/
theorem runCmdsFrom_invariant (cmds : List SpecCmd) :
    ∀ (counts counts2 : TestCounts), runCmdsFrom counts cmds = some counts2 →
      counts.passed ≤ counts.total → counts2.passed ≤ counts2.total := by
  induction cmds with
  | nil =>
    intro counts counts2 h hinv
    simp only [runCmdsFrom, Option.some.injEq] at h
    subst h
    exact hinv
  | cons c cs ih =>
    intro counts counts2 h hinv
    rw [runCmdsFrom] at h
    cases hstep : runCmdCounts counts c with
    | none => rw [hstep] at h; cases h
    | some countsMid =>
      rw [hstep] at h
      exact ih countsMid counts2 h (runCmdCounts_invariant counts countsMid c hstep hinv)

/-- C8: when the driver processes the whole command list (the counter fold
completes), it prints the single trailing summary line "P/T tests passed."
with P the number of passed assertions and T the number of attempted
assertions, and P ≤ T. -/
theorem C8_summary_line (cmds : List SpecCmd) (p t : Nat)
    (h : runCmds cmds = some (TestCounts.mk p t)) :
    p ≤ t ∧
    spec_json_summary_line cmds =
      some (toString p ++ "/" ++ toString t ++ " tests passed.") := by
  constructor
  · have := runCmdsFrom_invariant cmds (TestCounts.mk 0 0) (TestCounts.mk p t) h
      (Nat.le_refl 0)
    exact this
  · unfold spec_json_summary_line runCmds
    unfold runCmds at h
    rw [h]

/-- C8 witness: a passing assert_exhaustion followed by a failing
assert_trap gives the line "1/2 tests passed.". -/
theorem C8_summary_line_witness :
    1 ≤ 2 ∧
    spec_json_summary_line
        [SpecCmd.assertExhaustionCmd IResult.TrapCallStackExhausted,
         SpecCmd.assertTrapCmd IResult.Ok] =
      some (toString 1 ++ "/" ++ toString 2 ++ " tests passed.") :=
  C8_summary_line
    [SpecCmd.assertExhaustionCmd IResult.TrapCallStackExhausted,
     SpecCmd.assertTrapCmd IResult.Ok] 1 2 rfl

/-- A single option callback never clears the spec flag. -/
theorem applyOption_spec_mono (cfg : ProgConfig) (o : ProgOption)
    (h : cfg.s_spec = true) : (applyOption cfg o).s_spec = true := by
  cases o <;> simp [applyOption, h]

/-- A single option callback never clears the run-all-exports flag. -/
theorem applyOption_rae_mono (cfg : ProgConfig) (o : ProgOption)
    (h : cfg.s_run_all_exports = true) :
    (applyOption cfg o).s_run_all_exports = true := by
  cases o <;> simp [applyOption, h]

/-- After the option fold, the spec flag is set whenever --spec occurred. -/
theorem foldl_spec_true (args : List ProgOption) :
    ∀ cfg : ProgConfig, (ProgOption.specOpt ∈ args ∨ cfg.s_spec = true) →
      (args.foldl applyOption cfg).s_spec = true := by
  induction args with
  | nil =>
    intro cfg h
    rcases h with h | h
    · cases h
    · exact h
  | cons o os ih =>
    intro cfg h
    rw [List.foldl_cons]
    rcases h with h | h
    · rcases List.mem_cons.mp h with rfl | hmem
      · exact ih (applyOption cfg ProgOption.specOpt)
          (Or.inr (by simp [applyOption]))
      · exact ih (applyOption cfg o) (Or.inl hmem)
    · exact ih (applyOption cfg o) (Or.inr (applyOption_spec_mono cfg o h))

/-- After the option fold, the run-all-exports flag is set whenever
--run-all-exports occurred. -/
theorem foldl_rae_true (args : List ProgOption) :
    ∀ cfg : ProgConfig,
      (ProgOption.runAllExports ∈ args ∨ cfg.s_run_all_exports = true) →
      (args.foldl applyOption cfg).s_run_all_exports = true := by
  induction args with
  | nil =>
    intro cfg h
    rcases h with h | h
    · cases h
    · exact h
  | cons o os ih =>
    intro cfg h
    rw [List.foldl_cons]
    rcases h with h | h
    · rcases List.mem_cons.mp h with rfl | hmem
      · exact ih (applyOption cfg ProgOption.runAllExports)
          (Or.inr (by simp [applyOption]))
      · exact ih (applyOption cfg o) (Or.inl hmem)
    · exact ih (applyOption cfg o) (Or.inr (applyOption_rae_mono cfg o h))

/-- C10: an invocation supplying both --spec and --run-all-exports aborts
with the fatal error "--spec and --run-all-exports are incompatible." during
option parsing, so — whatever the file-reading stages would do — no input
file is ever read. -/
theorem C10_spec_runall_incompatible (args : List ProgOption) (filename : String)
    (hs : ProgOption.specOpt ∈ args) (hr : ProgOption.runAllExports ∈ args) :
    parse_options args =
      Except.error "--spec and --run-all-exports are incompatible.\n" ∧
    ∀ (runSpecJson runModuleFile : String → WabtResult),
      ProgramMain args filename runSpecJson runModuleFile =
        Except.error "--spec and --run-all-exports are incompatible.\n" := by
  have h1 : (args.foldl applyOption initConfig).s_spec = true :=
    foldl_spec_true args initConfig (Or.inl hs)
  have h2 : (args.foldl applyOption initConfig).s_run_all_exports = true :=
    foldl_rae_true args initConfig (Or.inl hr)
  have hp : parse_options args =
      Except.error "--spec and --run-all-exports are incompatible.\n" := by
    unfold parse_options
    simp [h1, h2]
  refine ⟨hp, ?_⟩
  intro runSpecJson runModuleFile
  unfold ProgramMain
  rw [hp]

/-- C10 witness: giving exactly --spec and --run-all-exports is fatal. -/
theorem C10_spec_runall_incompatible_witness :
    parse_options [ProgOption.specOpt, ProgOption.runAllExports] =
      Except.error "--spec and --run-all-exports are incompatible.\n" ∧
    ProgramMain [ProgOption.specOpt, ProgOption.runAllExports] "spec.json"
        (fun _ => WabtResult.Ok) (fun _ => WabtResult.Ok) =
      Except.error "--spec and --run-all-exports are incompatible.\n" :=
  ⟨(C10_spec_runall_incompatible [ProgOption.specOpt, ProgOption.runAllExports]
      "spec.json" (by decide) (by decide)).1,
   (C10_spec_runall_incompatible [ProgOption.specOpt, ProgOption.runAllExports]
      "spec.json" (by decide) (by decide)).2
     (fun _ => WabtResult.Ok) (fun _ => WabtResult.Ok)⟩

end Wabt
